import Mathlib

/-!
# Shallow embedding of the ARINC 653 scheduler core (xen/common/sched_arinc653.c)

The C source is embedded as executable Lean definitions: the fixed-size C
arrays (`schedule[ARINC653_MAX_SERVICES_PER_SCHEDULE]`,
`providers[ARINC653_MAX_DOMAINS_PER_SERVICE]`, the wire-format arrays) are
modelled as total functions `Nat → _`, so that reads of stale slots beyond the
valid count — which the C code can perform — are reflected faithfully.
`s_time_t` (signed 64-bit nanoseconds) is modelled as `Int`; `domid_t`,
`vcpu_id` and `service_id` as `Int`; the 16-byte `xen_domain_handle_t` as a
`List Nat` of bytes.  Pointers (`struct vcpu *`, `a653sched_domain_t *`)
become `Option`-valued references carried by value.
-/

namespace Arinc653

/-- `ARINC653_MAX_SERVICES_PER_SCHEDULE`.  Modelled from the spec: the public
header `public/sysctl.h` that defines this bound (`MAX_ENTRIES` in the spec)
is not part of the sources; a representative concrete value is used, and no
claim depends on the particular value. -/
def ARINC653_MAX_SERVICES_PER_SCHEDULE : Nat := 64

/-- `ARINC653_MAX_DOMAINS_PER_SERVICE`.  Modelled from the spec: the public
header bound on providers per entry (`MAX_PROVIDERS` in the spec) is not part
of the sources; a representative concrete value is used, and no claim depends
on the particular value. -/
def ARINC653_MAX_DOMAINS_PER_SERVICE : Nat := 8

/-- `DEFAULT_TIMESLICE` is `MILLISECS(10)`, i.e. 10 ms in nanoseconds. -/
def DEFAULT_TIMESLICE : Int := 10000000

/-- errno `EINVAL`. -/
def EINVAL : Int := 22

/-- `DOMID_IDLE`: the domain id of the idle domain, used by `is_idle_vcpu`.
Modelled from the spec: idle VCPUs belong to a host-reserved idle domain
whose id is distinct from every guest domain id. -/
def IDLE_DOMAIN_ID : Int := 32767

/-- `xen_domain_handle_t`: 16 opaque bytes, compared bytewise. -/
abbrev DomHandle : Type := List Nat

/-- The all-zero domain handle (16 zero bytes). -/
def zeroHandle : DomHandle := List.replicate 16 0

/-- `a653sched_domain_t`: per-domain scheduler data. -/
structure A653Domain where
  parent  : Int
  primary : Bool
  healthy : Bool
deriving DecidableEq

/-- `arinc653_vcpu_t` (the part reachable from a `struct vcpu`): the
per-VCPU scheduler data holds the `awake` flag. -/
structure AVcpu where
  awake : Bool
deriving DecidableEq

/-- The fields of the host `struct domain` the scheduler reads: id, handle
and the attached `a653sched_domain_t` record (`d->sched_priv`, nullable). -/
structure Domain where
  domain_id  : Int
  handle     : DomHandle
  sched_priv : Option A653Domain
deriving DecidableEq

/-- The fields of the host `struct vcpu` the scheduler reads: owning domain,
vcpu id, home processor, host runnability, and the attached
`arinc653_vcpu_t` (`vc->sched_priv`, nullable). -/
structure Vcpu where
  domain     : Domain
  vcpu_id    : Int
  processor  : Nat
  runnable   : Bool
  sched_priv : Option AVcpu
deriving DecidableEq

/-- `is_idle_vcpu`: the VCPU belongs to the idle domain. -/
def is_idle_vcpu (v : Vcpu) : Bool := v.domain.domain_id == IDLE_DOMAIN_ID

/-- `sched_providers_t`: one provider of a schedule entry. -/
structure SchedProvider where
  dom_handle : DomHandle
  vcpu_id    : Int
  vc         : Option Vcpu
deriving DecidableEq

/-- `sched_entry_t`: one minor frame.  `providers` models the fixed C array
`providers[ARINC653_MAX_DOMAINS_PER_SERVICE]` as a total function; only
indices below `num_providers` are valid, the rest are stale slots. -/
structure SchedEntry where
  service_id    : Int
  runtime       : Int
  num_providers : Nat
  providers     : Nat → SchedProvider

/-- `a653sched_priv_t`: the per-instance scheduler state.  `schedule` models
the fixed array `schedule[ARINC653_MAX_SERVICES_PER_SCHEDULE]` as a total
function; only indices below `num_schedule_entries` are valid.  `vcpu_list`
is the registry list, in list order (`list_add` prepends). -/
structure SchedPriv where
  schedule             : Nat → SchedEntry
  num_schedule_entries : Nat
  major_frame          : Int
  next_major_frame     : Int
  vcpu_list            : List Vcpu

/-- Wire format: one provider of `xen_sysctl_arinc653_schedule`. -/
structure WireProvider where
  dom_handle : DomHandle
  vcpu_id    : Int
deriving DecidableEq

/-- Wire format: one entry of `xen_sysctl_arinc653_schedule`; the fixed
array `service_providers[...]` is again a total function. -/
structure WireEntry where
  service_id        : Int
  runtime           : Int
  num_providers     : Nat
  service_providers : Nat → WireProvider

/-- Wire format: `xen_sysctl_arinc653_schedule`. -/
structure WireSched where
  major_frame       : Int
  num_sched_entries : Nat
  sched_entries     : Nat → WireEntry

/-- A zeroed provider slot. -/
def zeroProvider : SchedProvider :=
  { dom_handle := zeroHandle, vcpu_id := 0, vc := none }

/-- A zeroed schedule entry. -/
def zeroEntry : SchedEntry :=
  { service_id := 0, runtime := 0, num_providers := 0,
    providers := fun _ => zeroProvider }

/-- The freshly initialized instance state: `a653sched_init` `xzalloc`s the
whole structure (everything zero) and sets `next_major_frame = 0`. -/
def freshPriv : SchedPriv :=
  { schedule := fun _ => zeroEntry, num_schedule_entries := 0,
    major_frame := 0, next_major_frame := 0, vcpu_list := [] }

/-- `dom_handle_cmp(h1, h2) == 0`: bytewise equality of the two handles. -/
def dom_handle_eq (h1 h2 : DomHandle) : Bool := h1 == h2

/-- `find_vcpu`: scan the registry list in order for the first VCPU whose
domain handle and vcpu id match. -/
def find_vcpu (l : List Vcpu) (h : DomHandle) (vcpu_id : Int) : Option Vcpu :=
  l.find? (fun v => dom_handle_eq v.domain.handle h && v.vcpu_id == vcpu_id)

/-- `update_schedule_vcpus`: re-resolve the cached `vc` pointer of every
provider of every valid entry against the registry. -/
def update_schedule_vcpus (prv : SchedPriv) : SchedPriv :=
  { prv with schedule := fun i =>
      if i < prv.num_schedule_entries then
        let e := prv.schedule i
        { e with providers := fun j =>
            if j < e.num_providers then
              { e.providers j with
                vc := find_vcpu prv.vcpu_list (e.providers j).dom_handle
                        (e.providers j).vcpu_id }
            else e.providers j }
      else prv.schedule i }

/-- `arinc653_sched_set`: validate, then copy the new timetable into place,
re-resolve provider VCPUs, and set `next_major_frame = NOW()` (the `now`
argument models the `NOW()` call).  Returns `(rc, new state)`; every failed
check takes the `goto fail` path before any mutation, so the state is
returned unchanged there. -/
def arinc653_sched_set (prv : SchedPriv) (s : WireSched) (now : Int) :
    Int × SchedPriv :=
  if s.major_frame ≤ 0 ∨ s.num_sched_entries < 1 ∨
      s.num_sched_entries > ARINC653_MAX_SERVICES_PER_SCHEDULE then
    (-EINVAL, prv)
  else if (List.range s.num_sched_entries).any (fun i =>
      (s.sched_entries i).num_providers < 1 ∨
      (s.sched_entries i).num_providers > ARINC653_MAX_DOMAINS_PER_SERVICE) then
    (-EINVAL, prv)
  else if (List.range s.num_sched_entries).any (fun i =>
      (s.sched_entries i).runtime ≤ 0) then
    (-EINVAL, prv)
  else if ((List.range s.num_sched_entries).map
      (fun i => (s.sched_entries i).runtime)).sum > s.major_frame then
    (-EINVAL, prv)
  else
    let copied : SchedPriv :=
      { prv with
        num_schedule_entries := s.num_sched_entries,
        major_frame := s.major_frame,
        schedule := fun i =>
          if i < s.num_sched_entries then
            let se := s.sched_entries i
            let old := prv.schedule i
            { service_id := se.service_id,
              runtime := se.runtime,
              num_providers := se.num_providers,
              providers := fun j =>
                if j < se.num_providers then
                  { dom_handle := (se.service_providers j).dom_handle,
                    vcpu_id := (se.service_providers j).vcpu_id,
                    vc := (old.providers j).vc }
                else old.providers j }
          else prv.schedule i }
    let resolved := update_schedule_vcpus copied
    (0, { resolved with next_major_frame := now })

/-- `arinc653_sched_get`: copy the timetable into the caller's buffer `buf`.
For each valid entry the code copies each provider's `dom_handle` and
`vcpu_id` and the entry's `runtime`; the buffer's `service_id` and
`num_providers` fields are not written. -/
def arinc653_sched_get (prv : SchedPriv) (buf : WireSched) : WireSched :=
  { buf with
    num_sched_entries := prv.num_schedule_entries,
    major_frame := prv.major_frame,
    sched_entries := fun i =>
      if i < prv.num_schedule_entries then
        let e := prv.schedule i
        let be := buf.sched_entries i
        { be with
          runtime := e.runtime,
          service_providers := fun j =>
            if j < e.num_providers then
              { dom_handle := (e.providers j).dom_handle,
                vcpu_id := (e.providers j).vcpu_id }
            else be.service_providers j }
      else buf.sched_entries i }

/-- The §4.1 validation conditions, written from the spec: `major_frame > 0`;
`1 ≤ num_entries ≤ MAX_ENTRIES`; each entry has `runtime > 0` and
`1 ≤ num_providers ≤ MAX_PROVIDERS`; sum of runtimes `≤ major_frame`. -/
def scheduleValid (s : WireSched) : Prop :=
  0 < s.major_frame ∧
  1 ≤ s.num_sched_entries ∧
  s.num_sched_entries ≤ ARINC653_MAX_SERVICES_PER_SCHEDULE ∧
  (∀ i, i < s.num_sched_entries → 0 < (s.sched_entries i).runtime) ∧
  (∀ i, i < s.num_sched_entries →
    1 ≤ (s.sched_entries i).num_providers ∧
    (s.sched_entries i).num_providers ≤ ARINC653_MAX_DOMAINS_PER_SERVICE) ∧
  ((List.range s.num_sched_entries).map
    (fun i => (s.sched_entries i).runtime)).sum ≤ s.major_frame

instance (s : WireSched) : Decidable (scheduleValid s) := by
  unfold scheduleValid
  infer_instance


/-- One step test of `providers_candidate`'s loop body: provider `i`
qualifies when its resolved VCPU is non-null, the VCPU's domain has an
attached domain record (`DOM_PRIV`), and that record's `healthy` flag is
true.  This is exactly the condition under which the C loop does not
`continue`. -/
def providerQualifies (e : SchedEntry) (i : Nat) : Bool :=
  match (e.providers i).vc with
  | none => false
  | some vc =>
    match vc.domain.sched_priv with
    | none => false
    | some dom => dom.healthy

/-- The loop of `providers_candidate`, from index `i` upward: return the
first qualifying provider (the `break`), or `NULL` when the loop runs off
the end. -/
def providers_candidate_from (e : SchedEntry) (i : Nat) : Option SchedProvider :=
  if _h : i < e.num_providers then
    if providerQualifies e i then some (e.providers i)
    else providers_candidate_from e (i + 1)
  else none
termination_by e.num_providers - i

/-- `providers_candidate`: scan the entry's providers in declared order. -/
def providers_candidate (e : SchedEntry) : Option SchedProvider :=
  providers_candidate_from e 0

/-- `a653sched_insert_vcpu`: for a VCPU of domain 0, if a schedule slot is
free, append an entry (writing only byte 0 of the slot's stale handle, the
vcpu id, the resolved pointer, runtime `DEFAULT_TIMESLICE`, one provider)
and extend the major frame; then prepend the VCPU to the registry
(`list_add` adds at the head) and re-resolve all providers. -/
def a653sched_insert_vcpu (prv : SchedPriv) (vc : Vcpu) : SchedPriv :=
  let prv1 :=
    if vc.domain.domain_id = 0 then
      let entry := prv.num_schedule_entries
      if entry < ARINC653_MAX_SERVICES_PER_SCHEDULE then
        { prv with
          schedule := fun i =>
            if i = entry then
              let e := prv.schedule entry
              { e with
                providers := fun j =>
                  if j = 0 then
                    { dom_handle := (e.providers 0).dom_handle.set 0 0,
                      vcpu_id := vc.vcpu_id,
                      vc := some vc }
                  else e.providers j,
                runtime := DEFAULT_TIMESLICE,
                num_providers := 1 }
            else prv.schedule i,
          major_frame := prv.major_frame + DEFAULT_TIMESLICE,
          num_schedule_entries := entry + 1 }
      else prv
    else prv
  update_schedule_vcpus { prv1 with vcpu_list := vc :: prv1.vcpu_list }

/-- The cross-call static state of `a653sched_do_schedule`: `sched_index`,
`next_switch_time`, and the cached `entry` pointer.  The pointer always
points into the instance's `schedule` array, so it is modelled by its index
`entry_idx` (the pointed-to content is read through the current array). -/
structure DispatchStatics where
  sched_index      : Nat
  entry_idx        : Nat
  next_switch_time : Int
deriving DecidableEq

/-- The `while` loop of the minor-frame advance: while `now` has reached the
next switch time and entries remain, advance the index and accumulate the
next entry's runtime.  Returns the final `(sched_index, next_switch_time)`.
Note that the body first increments the index and then reads
`schedule[new index].runtime` — at exit by the index bound this has read the
slot one past the last valid entry. -/
def advanceLoop (prv : SchedPriv) (now : Int) (idx : Nat) (nst : Int) :
    Nat × Int :=
  if nst ≤ now ∧ idx < prv.num_schedule_entries then
    advanceLoop prv now (idx + 1) (nst + (prv.schedule (idx + 1)).runtime)
  else (idx, nst)
termination_by prv.num_schedule_entries - idx
decreasing_by omega

/-- The result of one `a653sched_do_schedule` call: the returned
`task_slice` (`time`, `task`, `migrated`), the updated instance state
(`next_major_frame`), the updated statics, and the `current_provider`
local chosen by the provider selector in this call. -/
structure DoSchedResult where
  time      : Int
  task      : Option Vcpu
  migrated  : Bool
  prv       : SchedPriv
  stat      : DispatchStatics
  candidate : Option SchedProvider

/-- `a653sched_do_schedule`.  `idle` is `IDLETASK(cpu)`, the current CPU's
idle VCPU; `cpu` is `smp_processor_id()`.  The two `BUG_ON` assertions
(`now < next_major_frame` and `ret.time > 0`) are not control flow: the
computed values are returned and the assertions are stated as theorems
about them. -/
def a653sched_do_schedule (prv : SchedPriv) (st : DispatchStatics)
    (now : Int) (tasklet_work_scheduled : Bool) (cpu : Nat) (idle : Vcpu) :
    DoSchedResult :=
  let branches : SchedPriv × DispatchStatics × Option SchedProvider :=
    if prv.num_schedule_entries < 1 then
      ({ prv with next_major_frame := now + DEFAULT_TIMESLICE }, st, none)
    else if prv.next_major_frame ≤ now then
      let start_time := prv.next_major_frame
      let st1 : DispatchStatics :=
        { sched_index := 0, entry_idx := 0,
          next_switch_time := start_time + (prv.schedule 0).runtime }
      ({ prv with next_major_frame := start_time + prv.major_frame }, st1,
       providers_candidate (prv.schedule 0))
    else
      let r := advanceLoop prv now st.sched_index st.next_switch_time
      let eidx := if r.1 = st.sched_index then st.entry_idx else r.1
      let st1 : DispatchStatics :=
        { sched_index := r.1, entry_idx := eidx, next_switch_time := r.2 }
      (prv, st1, providers_candidate (prv.schedule eidx))
  let prv1 := branches.1
  let st1 := branches.2.1
  let cand := branches.2.2
  let new_task0 : Option Vcpu :=
    match cand with
    | some p => p.vc
    | none => none
  let slack := prv1.num_schedule_entries ≤ st1.sched_index
  let st2 : DispatchStatics :=
    if slack then { st1 with next_switch_time := prv1.next_major_frame }
    else st1
  let new_task1 : Option Vcpu := if slack then some idle else new_task0
  let new_task2 : Option Vcpu :=
    match new_task1 with
    | some t =>
      if (match t.sched_priv with | some av => av.awake | none => false)
          && t.runnable then some t
      else some idle
    | none => some idle
  let new_task3 : Option Vcpu :=
    if tasklet_work_scheduled then some idle else new_task2
  let new_task4 : Option Vcpu :=
    match new_task3 with
    | some t => if !(is_idle_vcpu t) && t.processor ≠ cpu then some idle
                else some t
    | none => none
  { time := st2.next_switch_time - now,
    task := new_task4,
    migrated := false,
    prv := prv1,
    stat := st2,
    candidate := cand }

/-- `XEN_DOMCTL_SCHEDOP_putinfo`.  Modelled from the spec: the numeric
values of the per-domain subcommands live in a public header not under the
sources; only their distinctness matters. -/
def XEN_DOMCTL_SCHEDOP_putinfo : Nat := 0

/-- `XEN_DOMCTL_SCHEDOP_getinfo`.  Modelled from the spec, as above. -/
def XEN_DOMCTL_SCHEDOP_getinfo : Nat := 1

/-- `xen_domctl_scheduler_op` as used by the per-domain adjust path:
subcommand plus the `arinc653` payload `{parent, healthy}`. -/
structure DomctlSchedOp where
  cmd     : Nat
  parent  : Int
  healthy : Bool
deriving DecidableEq

/-- `a653sched_adjust_domain`: on `putinfo`, update `parent`/`primary` when
the new parent is not the sentinel `-1` and always update `healthy`; on
`getinfo`, write the current `parent` and `healthy` into the request.  The
function returns 0 on every path — the `switch` has no default case and
`rc` does not exist; unknown subcommands fall through to `return 0`.
Returns `(rc, domain record, request)`. -/
def a653sched_adjust_domain (d_id : Int) (sdom : A653Domain)
    (op : DomctlSchedOp) : Int × A653Domain × DomctlSchedOp :=
  if op.cmd = XEN_DOMCTL_SCHEDOP_putinfo then
    let sdom1 :=
      if op.parent ≠ -1 then
        { sdom with parent := op.parent, primary := op.parent = d_id }
      else sdom
    (0, { sdom1 with healthy := op.healthy }, op)
  else if op.cmd = XEN_DOMCTL_SCHEDOP_getinfo then
    (0, sdom, { op with parent := sdom.parent, healthy := sdom.healthy })
  else
    (0, sdom, op)

/-- Sum of the runtimes of the valid schedule entries (spec invariant I1
compares this against `major_frame`). -/
def sumRuntimes (prv : SchedPriv) : Int :=
  ((List.range prv.num_schedule_entries).map
    (fun i => (prv.schedule i).runtime)).sum

/-! ## Concrete fixtures used by witnesses and counterexamples -/

/-- The bootstrap domain (id 0) with the all-zero handle and a healthy
attached record. -/
def bootDomain : Domain :=
  { domain_id := 0, handle := zeroHandle,
    sched_priv := some { parent := 0, primary := true, healthy := true } }

/-- Bootstrap VCPU 0. -/
def bootV0 : Vcpu :=
  { domain := bootDomain, vcpu_id := 0, processor := 0, runnable := true,
    sched_priv := some { awake := true } }

/-- Bootstrap VCPU 1. -/
def bootV1 : Vcpu :=
  { domain := bootDomain, vcpu_id := 1, processor := 0, runnable := true,
    sched_priv := some { awake := true } }

/-- An idle VCPU for CPU 0. -/
def idleV : Vcpu :=
  { domain := { domain_id := IDLE_DOMAIN_ID, handle := zeroHandle,
                sched_priv := none },
    vcpu_id := 0, processor := 0, runnable := true,
    sched_priv := some { awake := false } }

/-- A handle that is zero except for byte 1. -/
def staleHandle : DomHandle := (List.replicate 16 0).set 1 1

/-- A wire provider referring to (all-zero handle, vcpu 0). -/
def wireP0 : WireProvider := { dom_handle := zeroHandle, vcpu_id := 0 }

/-- A valid one-entry schedule: 10 ms runtime filling a 10 ms major frame,
service id 5, one provider. -/
def sampleSched : WireSched :=
  { major_frame := 10000000, num_sched_entries := 1,
    sched_entries := fun _ =>
      { service_id := 5, runtime := 10000000, num_providers := 1,
        service_providers := fun _ => wireP0 } }

/-- A valid two-entry schedule whose second entry's provider carries the
non-zero handle `staleHandle`. -/
def schedA : WireSched :=
  { major_frame := 20000000, num_sched_entries := 2,
    sched_entries := fun i =>
      if i = 1 then
        { service_id := 7, runtime := 10000000, num_providers := 1,
          service_providers := fun _ =>
            { dom_handle := staleHandle, vcpu_id := 7 } }
      else
        { service_id := 6, runtime := 10000000, num_providers := 1,
          service_providers := fun _ => wireP0 } }

/-- A valid one-entry schedule, installed after `schedA` to leave slot 1
stale. -/
def schedB : WireSched :=
  { major_frame := 10000000, num_sched_entries := 1,
    sched_entries := fun _ =>
      { service_id := 9, runtime := 10000000, num_providers := 1,
        service_providers := fun _ => wireP0 } }

/-- An invalid schedule: zero entries. -/
def emptyWireSched : WireSched :=
  { major_frame := 10, num_sched_entries := 0,
    sched_entries := fun _ =>
      { service_id := 0, runtime := 0, num_providers := 0,
        service_providers := fun _ => wireP0 } }

/-- The guest buffer as prepared by `a653sched_adjust_global` before
`getinfo`: `memset(&local_sched, -1, sizeof(local_sched))`, i.e. every byte
`0xFF` — signed fields read back as `-1`, the unsigned counts as
`2^32 - 1`. -/
def memsetBuf : WireSched :=
  { major_frame := -1, num_sched_entries := 4294967295,
    sched_entries := fun _ =>
      { service_id := -1, runtime := -1, num_providers := 4294967295,
        service_providers := fun _ =>
          { dom_handle := List.replicate 16 255, vcpu_id := -1 } } }

/-- A schedule entry with two providers: provider 0 has a null resolved
VCPU, provider 1 resolves to `bootV0` whose domain record is healthy. -/
def sampleEntry : SchedEntry :=
  { service_id := 3, runtime := 10000000, num_providers := 2,
    providers := fun j =>
      if j = 0 then { dom_handle := zeroHandle, vcpu_id := 5, vc := none }
      else { dom_handle := zeroHandle, vcpu_id := 0, vc := some bootV0 } }

/-- Dispatcher statics as on the very first call: zeroed. -/
def st0 : DispatchStatics :=
  { sched_index := 0, entry_idx := 0, next_switch_time := 0 }

/-! ## Theorems -/

/-- C2: `arinc653_sched_set` returns `-EINVAL` exactly when the candidate
timetable violates the §4.1 validation conditions (`major_frame > 0`,
`1 ≤ num_entries ≤ MAX_ENTRIES`, per-entry `runtime > 0` and
`1 ≤ num_providers ≤ MAX_PROVIDERS`, sum of runtimes `≤ major_frame`), it
returns 0 exactly when they all hold, and on any failure the previously
installed state is completely unchanged. -/
theorem sched_set_validation (prv : SchedPriv) (s : WireSched) (now : Int) :
    ((arinc653_sched_set prv s now).1 = -EINVAL ↔ ¬ scheduleValid s) ∧
    ((arinc653_sched_set prv s now).1 = 0 ↔ scheduleValid s) ∧
    (¬ scheduleValid s → (arinc653_sched_set prv s now).2 = prv) := by
  unfold arinc653_sched_set
  split_ifs with h1 h2 h3 h4
  · have hnv : ¬ scheduleValid s := by
      intro hv
      obtain ⟨v1, v2, v3, _, _, _⟩ := hv
      rcases h1 with h | h | h <;> omega
    exact ⟨by simpa using hnv, by simp [EINVAL]; exact fun h => absurd h hnv, fun _ => rfl⟩
  · have hnv : ¬ scheduleValid s := by
      intro hv
      obtain ⟨_, _, _, _, v5, _⟩ := hv
      simp only [List.any_eq_true, List.mem_range, decide_eq_true_eq] at h2
      obtain ⟨i, hi, hbad⟩ := h2
      have := v5 i hi
      omega
    exact ⟨by simpa using hnv, by simp [EINVAL]; exact fun h => absurd h hnv, fun _ => rfl⟩
  · have hnv : ¬ scheduleValid s := by
      intro hv
      obtain ⟨_, _, _, v4, _, _⟩ := hv
      simp only [List.any_eq_true, List.mem_range, decide_eq_true_eq] at h3
      obtain ⟨i, hi, hbad⟩ := h3
      have := v4 i hi
      omega
    exact ⟨by simpa using hnv, by simp [EINVAL]; exact fun h => absurd h hnv, fun _ => rfl⟩
  · have hnv : ¬ scheduleValid s := by
      intro hv
      obtain ⟨_, _, _, _, _, v6⟩ := hv
      omega
    exact ⟨by simpa using hnv, by simp [EINVAL]; exact fun h => absurd h hnv, fun _ => rfl⟩
  · have hv : scheduleValid s := by
      push_neg at h1
      simp only [List.any_eq_true, List.mem_range, decide_eq_true_eq, not_exists] at h2 h3
      push_neg at h2 h3 h4
      refine ⟨by omega, by omega, by omega, ?_, ?_, by omega⟩
      · intro i hi
        have := h3 i
        simp only [List.mem_range] at this
        omega
      · intro i hi
        have := h2 i
        simp only [List.mem_range] at this
        omega
    refine ⟨?_, ?_, fun h => absurd hv h⟩
    · simp only [EINVAL]
      constructor
      · intro h; omega
      · intro h; exact absurd hv h
    · simp [hv]

/-- Witness for `sched_set_validation`: the zero-entry schedule is invalid
and installing it leaves the fresh instance unchanged. -/
theorem sched_set_validation_witness :
    ¬ scheduleValid emptyWireSched ∧
    (arinc653_sched_set freshPriv emptyWireSched 0).2 = freshPriv :=
  ⟨by decide, (sched_set_validation freshPriv emptyWireSched 0).2.2 (by decide)⟩

/-- C8: with an empty timetable (`num_schedule_entries < 1`) the dispatcher
returns the current CPU's idle VCPU with a slice of `DEFAULT_TIMESLICE`,
and sets `next_major_frame = now + DEFAULT_TIMESLICE`. -/
theorem do_schedule_empty_timetable (prv : SchedPriv) (st : DispatchStatics)
    (now : Int) (tasklet : Bool) (cpu : Nat) (idle : Vcpu)
    (h : prv.num_schedule_entries = 0) :
    (a653sched_do_schedule prv st now tasklet cpu idle).task = some idle ∧
    (a653sched_do_schedule prv st now tasklet cpu idle).time
      = DEFAULT_TIMESLICE ∧
    (a653sched_do_schedule prv st now tasklet cpu idle).prv.next_major_frame
      = now + DEFAULT_TIMESLICE := by
  refine ⟨?_, ?_, ?_⟩ <;>
    simp [a653sched_do_schedule, h, ite_self]

/-- Witness for `do_schedule_empty_timetable` at the fresh instance. -/
theorem do_schedule_empty_timetable_witness :
    freshPriv.num_schedule_entries = 0 ∧
    (a653sched_do_schedule freshPriv st0 3 false 0 idleV).task = some idleV ∧
    (a653sched_do_schedule freshPriv st0 3 false 0 idleV).time
      = DEFAULT_TIMESLICE ∧
    (a653sched_do_schedule freshPriv st0 3 false 0 idleV).prv.next_major_frame
      = 3 + DEFAULT_TIMESLICE :=
  ⟨rfl, do_schedule_empty_timetable freshPriv st0 3 false 0 idleV rfl⟩

/-- C9 (amended): `a653sched_adjust_domain` handles a subcommand other than
`putinfo`/`getinfo` as a silent no-op that returns 0 (success) — the
`switch` has no default case — rather than failing with `-EINVAL`. -/
theorem adjust_domain_unknown_noop (d_id : Int) (sdom : A653Domain)
    (op : DomctlSchedOp)
    (h1 : op.cmd ≠ XEN_DOMCTL_SCHEDOP_putinfo)
    (h2 : op.cmd ≠ XEN_DOMCTL_SCHEDOP_getinfo) :
    a653sched_adjust_domain d_id sdom op = (0, sdom, op) := by
  unfold a653sched_adjust_domain
  rw [if_neg h1, if_neg h2]

/-- Witness for `adjust_domain_unknown_noop` at subcommand 2. -/
theorem adjust_domain_unknown_noop_witness :
    (2 : Nat) ≠ XEN_DOMCTL_SCHEDOP_putinfo ∧
    (2 : Nat) ≠ XEN_DOMCTL_SCHEDOP_getinfo ∧
    a653sched_adjust_domain 1
        { parent := 1, primary := true, healthy := true }
        { cmd := 2, parent := 0, healthy := true }
      = (0, { parent := 1, primary := true, healthy := true },
         { cmd := 2, parent := 0, healthy := true }) :=
  ⟨by decide, by decide,
   adjust_domain_unknown_noop 1
     { parent := 1, primary := true, healthy := true }
     { cmd := 2, parent := 0, healthy := true } (by decide) (by decide)⟩

/-- C9 counterexample: an unknown per-domain subcommand (2) returns 0, not
the `-EINVAL` the claim requires. -/
theorem adjust_domain_unknown_cex :
    (a653sched_adjust_domain 1
        { parent := 1, primary := true, healthy := true }
        { cmd := 2, parent := 0, healthy := true }).1 = 0 ∧
    (0 : Int) ≠ -EINVAL := by
  refine ⟨?_, by decide⟩
  rfl

/-- C1 counterexample: install the valid schedule `sampleSched`
(entry 0 has `service_id = 5` and one provider) into a fresh instance and
read it back through the `getinfo` buffer (`memset` to `-1`): the returned
entry's `service_id` is still `-1` and its `num_providers` is still the
`memset` garbage `2^32 - 1`, because `arinc653_sched_get` never writes
those two fields — so `get(set(S)) = S` fails. -/
theorem get_set_roundtrip_cex :
    ((arinc653_sched_get (arinc653_sched_set freshPriv sampleSched 0).2
        memsetBuf).sched_entries 0).service_id = -1 ∧
    ((sampleSched.sched_entries 0).service_id = 5) ∧
    ((arinc653_sched_get (arinc653_sched_set freshPriv sampleSched 0).2
        memsetBuf).sched_entries 0).num_providers = 4294967295 ∧
    ((sampleSched.sched_entries 0).num_providers = 1) := by
  refine ⟨?_, rfl, ?_, rfl⟩ <;> rfl

/-- Helper for C6: full characterization of the selector loop from any
start index `i` (`k` bounds the remaining iterations). -/
theorem providers_candidate_from_spec (e : SchedEntry) :
    ∀ k i, e.num_providers - i ≤ k →
      (∀ p, providers_candidate_from e i = some p →
        ∃ m, i ≤ m ∧ m < e.num_providers ∧ p = e.providers m ∧
          providerQualifies e m = true ∧
          ∀ j, i ≤ j → j < m → providerQualifies e j = false) ∧
      (providers_candidate_from e i = none ↔
        ∀ m, i ≤ m → m < e.num_providers → providerQualifies e m = false) := by
  intro k
  induction k with
  | zero =>
    intro i hk
    have hge : ¬ i < e.num_providers := by omega
    rw [providers_candidate_from, dif_neg hge]
    refine ⟨by simp, by simp; intro m h1 h2; omega⟩
  | succ k ih =>
    intro i hk
    by_cases hi : i < e.num_providers
    · rw [providers_candidate_from, dif_pos hi]
      by_cases hq : providerQualifies e i = true
      · rw [if_pos hq]
        refine ⟨?_, ?_⟩
        · intro p hp
          have hpe : p = e.providers i := (Option.some.inj hp).symm
          exact ⟨i, le_refl i, hi, hpe, hq, fun j hj1 hj2 => absurd hj2 (by omega)⟩
        · refine ⟨fun hsome => Option.noConfusion hsome, fun hall => ?_⟩
          have hfalse := hall i (le_refl i) hi
          rw [hq] at hfalse
          exact Bool.noConfusion hfalse
      · rw [if_neg hq]
        have hqf : providerQualifies e i = false := by
          revert hq; cases providerQualifies e i <;> simp
        obtain ⟨ih1, ih2⟩ := ih (i + 1) (by omega)
        refine ⟨?_, ?_⟩
        · intro p hp
          obtain ⟨m, hm1, hm2, hm3, hm4, hm5⟩ := ih1 p hp
          refine ⟨m, by omega, hm2, hm3, hm4, ?_⟩
          intro j hj1 hj2
          rcases Nat.eq_or_lt_of_le hj1 with hj | hj
          · exact hj ▸ hqf
          · exact hm5 j hj hj2
        · rw [ih2]
          constructor
          · intro hall m hm1 hm2
            rcases Nat.eq_or_lt_of_le hm1 with hm | hm
            · exact hm ▸ hqf
            · exact hall m hm hm2
          · intro hall m hm1 hm2
            exact hall m (by omega) hm2
    · rw [providers_candidate_from, dif_neg hi]
      refine ⟨by simp, by simp; intro m h1 h2; omega⟩

/-- C6: `providers_candidate` returns the first provider, in declared
order, whose resolved VCPU reference is non-null, whose VCPU's domain has
an attached domain record, and whose record's `healthy` flag is true; it
returns `NULL` exactly when no provider of the entry satisfies all three
conditions. -/
theorem providers_candidate_spec (e : SchedEntry) :
    (∀ i, providerQualifies e i = true ↔
      ∃ vc, (e.providers i).vc = some vc ∧
        ∃ dom, vc.domain.sched_priv = some dom ∧ dom.healthy = true) ∧
    (∀ p, providers_candidate e = some p →
      ∃ m, m < e.num_providers ∧ p = e.providers m ∧
        providerQualifies e m = true ∧
        ∀ j, j < m → providerQualifies e j = false) ∧
    (providers_candidate e = none ↔
      ∀ m, m < e.num_providers → providerQualifies e m = false) := by
  have hmain := providers_candidate_from_spec e (e.num_providers) 0 (by omega)
  refine ⟨?_, ?_, ?_⟩
  · intro i
    unfold providerQualifies
    rcases hvc : (e.providers i).vc with _ | vc
    · simp
    · rcases hdom : vc.domain.sched_priv with _ | dom
      · simp [hdom]
      · simp [hdom]
  · intro p hp
    obtain ⟨m, _, hm2, hm3, hm4, hm5⟩ := hmain.1 p hp
    exact ⟨m, hm2, hm3, hm4, fun j hj => hm5 j (Nat.zero_le j) hj⟩
  · rw [providers_candidate] at *
    rw [hmain.2]
    constructor
    · intro hall m hm; exact hall m (Nat.zero_le m) hm
    · intro hall m _ hm; exact hall m hm

/-- Witness for `providers_candidate_spec`: on `sampleEntry` the selector
skips the null-VCPU provider 0 and returns provider 1. -/
theorem providers_candidate_spec_witness :
    providers_candidate sampleEntry = some (sampleEntry.providers 1) ∧
    ∃ m, m < sampleEntry.num_providers ∧
      sampleEntry.providers 1 = sampleEntry.providers m ∧
      providerQualifies sampleEntry m = true ∧
      ∀ j, j < m → providerQualifies sampleEntry j = false := by
  have hcand : providers_candidate sampleEntry
      = some (sampleEntry.providers 1) := by
    rw [providers_candidate, providers_candidate_from,
      dif_pos (by simp [sampleEntry])]
    rw [if_neg (by simp [providerQualifies, sampleEntry])]
    rw [providers_candidate_from, dif_pos (by simp [sampleEntry])]
    rw [if_pos (by simp [providerQualifies, sampleEntry, bootV0, bootDomain])]
  exact ⟨hcand, (providers_candidate_spec sampleEntry).2.1 _ hcand⟩

/-- Helper: on a valid schedule, `arinc653_sched_set` succeeds and installs
exactly the wire data (entry count, major frame, per-entry `service_id`,
`runtime`, `num_providers`, per-provider handle and vcpu id), and sets
`next_major_frame` to the install time. -/
theorem sched_set_ok (prv : SchedPriv) (s : WireSched) (now : Int)
    (h : scheduleValid s) :
    (arinc653_sched_set prv s now).1 = 0 ∧
    (arinc653_sched_set prv s now).2.num_schedule_entries
      = s.num_sched_entries ∧
    (arinc653_sched_set prv s now).2.major_frame = s.major_frame ∧
    (arinc653_sched_set prv s now).2.next_major_frame = now ∧
    (∀ i, i < s.num_sched_entries →
      ((arinc653_sched_set prv s now).2.schedule i).service_id
        = (s.sched_entries i).service_id ∧
      ((arinc653_sched_set prv s now).2.schedule i).runtime
        = (s.sched_entries i).runtime ∧
      ((arinc653_sched_set prv s now).2.schedule i).num_providers
        = (s.sched_entries i).num_providers ∧
      ∀ j, j < (s.sched_entries i).num_providers →
        (((arinc653_sched_set prv s now).2.schedule i).providers j).dom_handle
          = ((s.sched_entries i).service_providers j).dom_handle ∧
        (((arinc653_sched_set prv s now).2.schedule i).providers j).vcpu_id
          = ((s.sched_entries i).service_providers j).vcpu_id) := by
  obtain ⟨v1, v2, v3, v4, v5, v6⟩ := h
  have g1 : ¬ (s.major_frame ≤ 0 ∨ s.num_sched_entries < 1 ∨
      s.num_sched_entries > ARINC653_MAX_SERVICES_PER_SCHEDULE) := by
    push_neg
    omega
  have g2 : ¬ ((List.range s.num_sched_entries).any fun i =>
      decide ((s.sched_entries i).num_providers < 1 ∨
        (s.sched_entries i).num_providers
          > ARINC653_MAX_DOMAINS_PER_SERVICE)) = true := by
    simp only [List.any_eq_true, List.mem_range, decide_eq_true_eq,
      not_exists]
    intro i
    rw [not_and]
    intro hi
    have := v5 i hi
    omega
  have g3 : ¬ ((List.range s.num_sched_entries).any fun i =>
      decide ((s.sched_entries i).runtime ≤ 0)) = true := by
    simp only [List.any_eq_true, List.mem_range, decide_eq_true_eq,
      not_exists]
    intro i
    rw [not_and]
    intro hi
    have := v4 i hi
    omega
  have g4 : ¬ ((List.range s.num_sched_entries).map
      (fun i => (s.sched_entries i).runtime)).sum > s.major_frame := by
    omega
  rw [arinc653_sched_set, if_neg g1, if_neg g2, if_neg g3, if_neg g4]
  simp only [update_schedule_vcpus]
  refine ⟨trivial, trivial, trivial, trivial, ?_⟩
  intro i hi
  simp only [if_pos hi]
  refine ⟨trivial, trivial, trivial, ?_⟩
  intro j hj
  simp only [if_pos hj]
  exact ⟨trivial, trivial⟩

/-- Witness for `sched_set_ok` on `sampleSched`. -/
theorem sched_set_ok_witness :
    scheduleValid sampleSched ∧
    (arinc653_sched_set freshPriv sampleSched 0).1 = 0 ∧
    (arinc653_sched_set freshPriv sampleSched 0).2.num_schedule_entries = 1 :=
  ⟨by decide, (sched_set_ok freshPriv sampleSched 0 (by decide)).1,
   (sched_set_ok freshPriv sampleSched 0 (by decide)).2.1⟩

/-- C1 (amended): after installing a valid schedule `s`, `schedule_get`
returns the installed entry count, major frame, per-entry runtime, and the
per-provider `(dom_handle, vcpu_id)` pairs, but each returned entry's
`service_id` and `num_providers` fields retain whatever the caller's
buffer previously held — `arinc653_sched_get` never writes them, so the
full round-trip `get(set(S)) = S` does not hold. -/
theorem sched_get_after_set (prv : SchedPriv) (s : WireSched)
    (buf : WireSched) (t : Int) (hval : scheduleValid s) :
    (arinc653_sched_get (arinc653_sched_set prv s t).2 buf).num_sched_entries
      = s.num_sched_entries ∧
    (arinc653_sched_get (arinc653_sched_set prv s t).2 buf).major_frame
      = s.major_frame ∧
    (∀ i, i < s.num_sched_entries →
      ((arinc653_sched_get (arinc653_sched_set prv s t).2
          buf).sched_entries i).runtime = (s.sched_entries i).runtime ∧
      ((arinc653_sched_get (arinc653_sched_set prv s t).2
          buf).sched_entries i).service_id
        = (buf.sched_entries i).service_id ∧
      ((arinc653_sched_get (arinc653_sched_set prv s t).2
          buf).sched_entries i).num_providers
        = (buf.sched_entries i).num_providers ∧
      ∀ j, j < (s.sched_entries i).num_providers →
        (((arinc653_sched_get (arinc653_sched_set prv s t).2
            buf).sched_entries i).service_providers j).dom_handle
          = ((s.sched_entries i).service_providers j).dom_handle ∧
        (((arinc653_sched_get (arinc653_sched_set prv s t).2
            buf).sched_entries i).service_providers j).vcpu_id
          = ((s.sched_entries i).service_providers j).vcpu_id) := by
  obtain ⟨_, hnum, hmf, _, hent⟩ := sched_set_ok prv s t hval
  rw [arinc653_sched_get]
  refine ⟨hnum, hmf, ?_⟩
  intro i hi
  have hi2 : i < (arinc653_sched_set prv s t).2.num_schedule_entries := by
    omega
  simp only [if_pos hi2]
  obtain ⟨_, hrt, hnp, hprov⟩ := hent i hi
  refine ⟨hrt, trivial, trivial, ?_⟩
  intro j hj
  have hj2 : j < ((arinc653_sched_set prv s t).2.schedule i).num_providers := by
    omega
  simp only [if_pos hj2]
  exact hprov j hj

/-- Witness for `sched_get_after_set` on `sampleSched` read back through
the `memset(-1)` buffer. -/
theorem sched_get_after_set_witness :
    scheduleValid sampleSched ∧
    (arinc653_sched_get (arinc653_sched_set freshPriv sampleSched 0).2
        memsetBuf).num_sched_entries = 1 ∧
    ((arinc653_sched_get (arinc653_sched_set freshPriv sampleSched 0).2
        memsetBuf).sched_entries 0).runtime
      = (sampleSched.sched_entries 0).runtime :=
  ⟨by decide,
   (sched_get_after_set freshPriv sampleSched memsetBuf 0 (by decide)).1,
   ((sched_get_after_set freshPriv sampleSched memsetBuf 0
      (by decide)).2.2 0 (by decide)).1⟩

/-- Helper: when the timetable is non-empty and `now` has reached
`next_major_frame`, the dispatcher takes the major-frame-boundary branch:
it restarts at entry 0, sets `next_switch_time` to the frame start plus
entry 0's runtime, advances `next_major_frame` by exactly one major frame
from its previous value, and selects the candidate from entry 0. -/
theorem do_schedule_boundary (prv : SchedPriv) (st : DispatchStatics)
    (now : Int) (tasklet : Bool) (cpu : Nat) (idle : Vcpu)
    (h1 : 1 ≤ prv.num_schedule_entries)
    (h2 : prv.next_major_frame ≤ now) :
    (a653sched_do_schedule prv st now tasklet cpu idle).stat.sched_index
      = 0 ∧
    (a653sched_do_schedule prv st now tasklet cpu idle).stat.entry_idx
      = 0 ∧
    (a653sched_do_schedule prv st now tasklet cpu idle).stat.next_switch_time
      = prv.next_major_frame + (prv.schedule 0).runtime ∧
    (a653sched_do_schedule prv st now tasklet cpu idle).prv.next_major_frame
      = prv.next_major_frame + prv.major_frame ∧
    (a653sched_do_schedule prv st now tasklet cpu idle).candidate
      = providers_candidate (prv.schedule 0) := by
  have hn : ¬ prv.num_schedule_entries < 1 := by omega
  have hs : ¬ prv.num_schedule_entries ≤ 0 := by omega
  simp only [a653sched_do_schedule, if_neg hn, if_pos h2]
  simp only [if_neg hs]
  exact ⟨trivial, trivial, trivial, trivial, trivial⟩

/-- C3: installing a valid schedule `s` at time `t` sets
`next_major_frame = t`, so the first dispatcher call at any `now > t`
takes the major-frame-boundary branch: it starts at entry 0 of the new
schedule (index, cached entry and candidate all from entry 0) and sets
`next_major_frame = t + s.major_frame` — the install time plus the new
major frame, not `now` plus it. -/
theorem immediate_takeover (prv : SchedPriv) (s : WireSched) (t now : Int)
    (st : DispatchStatics) (tasklet : Bool) (cpu : Nat) (idle : Vcpu)
    (hval : scheduleValid s) (ht : t < now) :
    (arinc653_sched_set prv s t).1 = 0 ∧
    (a653sched_do_schedule (arinc653_sched_set prv s t).2 st now tasklet
        cpu idle).stat.sched_index = 0 ∧
    (a653sched_do_schedule (arinc653_sched_set prv s t).2 st now tasklet
        cpu idle).stat.entry_idx = 0 ∧
    (a653sched_do_schedule (arinc653_sched_set prv s t).2 st now tasklet
        cpu idle).stat.next_switch_time
      = t + ((arinc653_sched_set prv s t).2.schedule 0).runtime ∧
    (a653sched_do_schedule (arinc653_sched_set prv s t).2 st now tasklet
        cpu idle).prv.next_major_frame = t + s.major_frame ∧
    (a653sched_do_schedule (arinc653_sched_set prv s t).2 st now tasklet
        cpu idle).candidate
      = providers_candidate ((arinc653_sched_set prv s t).2.schedule 0) := by
  obtain ⟨hrc, hnum, hmf, hnmf, _⟩ := sched_set_ok prv s t hval
  obtain ⟨_, hv2, _, _, _, _⟩ := hval
  have hb := do_schedule_boundary (arinc653_sched_set prv s t).2 st now
    tasklet cpu idle (by omega) (by omega)
  obtain ⟨b1, b2, b3, b4, b5⟩ := hb
  rw [hnmf] at b3 b4
  rw [hmf] at b4
  exact ⟨hrc, b1, b2, b3, b4, b5⟩

/-- Witness for `immediate_takeover`: `sampleSched` installed at `t = 0`
into a fresh instance, dispatcher called at `now = 1`. -/
theorem immediate_takeover_witness :
    scheduleValid sampleSched ∧ (0 : Int) < 1 ∧
    (arinc653_sched_set freshPriv sampleSched 0).1 = 0 ∧
    (a653sched_do_schedule (arinc653_sched_set freshPriv sampleSched 0).2
        st0 1 false 0 idleV).prv.next_major_frame
      = 0 + sampleSched.major_frame :=
  ⟨by decide, by decide,
   (immediate_takeover freshPriv sampleSched 0 1 st0 false 0 idleV
     (by decide) (by decide)).1,
   (immediate_takeover freshPriv sampleSched 0 1 st0 false 0 idleV
     (by decide) (by decide)).2.2.2.2.1⟩

/-- C4 failing input: install `sampleSched` (major frame 10 ms) at `t = 0`
and invoke the dispatcher at `now = 25 ms`.  The boundary branch computes
`next_switch_time = 0 + 10 ms`, so the returned slice is `-15 ms` — the
dispatcher's own `BUG_ON(ret.time <= 0)` fires and the call crashes
instead of returning a positive slice. -/
theorem do_schedule_negative_slice :
    (a653sched_do_schedule (arinc653_sched_set freshPriv sampleSched 0).2
        st0 25000000 false 0 idleV).time = -15000000 ∧
    (a653sched_do_schedule (arinc653_sched_set freshPriv sampleSched 0).2
        st0 25000000 false 0 idleV).time ≤ 0 := by
  refine ⟨?_, ?_⟩ <;> decide

/-- C5 failing input: with the same installed schedule, invoke the
dispatcher at `now = 30 ms`, more than one full major frame after the
previous `next_major_frame` (0).  The boundary branch sets
`next_major_frame = 0 + 10 ms`, so at the end of the call
`now < next_major_frame` is false — the code's
`BUG_ON(now >= sched_priv->next_major_frame)` fires. -/
theorem do_schedule_missed_major_frame :
    1 ≤ (arinc653_sched_set freshPriv sampleSched 0).2.num_schedule_entries ∧
    (a653sched_do_schedule (arinc653_sched_set freshPriv sampleSched 0).2
        st0 30000000 false 0 idleV).prv.next_major_frame = 10000000 ∧
    ¬ (30000000 : Int)
      < (a653sched_do_schedule (arinc653_sched_set freshPriv sampleSched 0).2
          st0 30000000 false 0 idleV).prv.next_major_frame := by
  refine ⟨?_, ?_, ?_⟩ <;> decide

/-- C7 (amended): inserting a VCPU of the bootstrap domain (id 0) while a
slot is free appends one entry with a single provider carrying the
inserted VCPU's id and `runtime = DEFAULT_TIMESLICE`, and extends
`major_frame` by `DEFAULT_TIMESLICE`, preserving invariant I1.  However,
the code only zeroes byte 0 of the slot's previous (possibly stale)
handle rather than writing an all-zero handle, and the provider's resolved
reference is then recomputed by registry lookup of that stored handle — it
equals the inserted VCPU only when the stored handle matches the
bootstrap domain's handle (as on a freshly zeroed instance).  In
particular, two bootstrap VCPUs joining a fresh instance yield two 10 ms
entries with resolved references to the two VCPUs and
`major_frame = 20 ms`. -/
theorem insert_vcpu_dom0 (prv : SchedPriv) (vc : Vcpu)
    (hdom : vc.domain.domain_id = 0)
    (hslot : prv.num_schedule_entries
      < ARINC653_MAX_SERVICES_PER_SCHEDULE) :
    (a653sched_insert_vcpu prv vc).num_schedule_entries
      = prv.num_schedule_entries + 1 ∧
    (a653sched_insert_vcpu prv vc).major_frame
      = prv.major_frame + DEFAULT_TIMESLICE ∧
    ((a653sched_insert_vcpu prv vc).schedule
        prv.num_schedule_entries).runtime = DEFAULT_TIMESLICE ∧
    ((a653sched_insert_vcpu prv vc).schedule
        prv.num_schedule_entries).num_providers = 1 ∧
    (((a653sched_insert_vcpu prv vc).schedule
        prv.num_schedule_entries).providers 0).vcpu_id = vc.vcpu_id ∧
    (((a653sched_insert_vcpu prv vc).schedule
        prv.num_schedule_entries).providers 0).dom_handle
      = ((prv.schedule prv.num_schedule_entries).providers 0).dom_handle.set
          0 0 ∧
    (((a653sched_insert_vcpu prv vc).schedule
        prv.num_schedule_entries).providers 0).vc
      = find_vcpu (vc :: prv.vcpu_list)
          (((prv.schedule prv.num_schedule_entries).providers
            0).dom_handle.set 0 0) vc.vcpu_id ∧
    (sumRuntimes prv ≤ prv.major_frame →
      sumRuntimes (a653sched_insert_vcpu prv vc)
        ≤ (a653sched_insert_vcpu prv vc).major_frame) ∧
    ((a653sched_insert_vcpu (a653sched_insert_vcpu freshPriv bootV0)
        bootV1).num_schedule_entries = 2 ∧
      (a653sched_insert_vcpu (a653sched_insert_vcpu freshPriv bootV0)
        bootV1).major_frame = 20000000 ∧
      ((a653sched_insert_vcpu (a653sched_insert_vcpu freshPriv bootV0)
        bootV1).schedule 0).runtime = DEFAULT_TIMESLICE ∧
      ((a653sched_insert_vcpu (a653sched_insert_vcpu freshPriv bootV0)
        bootV1).schedule 1).runtime = DEFAULT_TIMESLICE ∧
      (((a653sched_insert_vcpu (a653sched_insert_vcpu freshPriv bootV0)
        bootV1).schedule 0).providers 0).vc = some bootV0 ∧
      (((a653sched_insert_vcpu (a653sched_insert_vcpu freshPriv bootV0)
        bootV1).schedule 1).providers 0).vc = some bootV1 ∧
      (((a653sched_insert_vcpu (a653sched_insert_vcpu freshPriv bootV0)
        bootV1).schedule 0).providers 0).dom_handle = zeroHandle ∧
      (((a653sched_insert_vcpu (a653sched_insert_vcpu freshPriv bootV0)
        bootV1).schedule 1).providers 0).dom_handle = zeroHandle) := by
  have hlt : prv.num_schedule_entries < prv.num_schedule_entries + 1 := by
    omega
  have hnum : (a653sched_insert_vcpu prv vc).num_schedule_entries
      = prv.num_schedule_entries + 1 := by
    simp [a653sched_insert_vcpu, if_pos hdom, if_pos hslot,
      update_schedule_vcpus]
  have hmf : (a653sched_insert_vcpu prv vc).major_frame
      = prv.major_frame + DEFAULT_TIMESLICE := by
    simp [a653sched_insert_vcpu, if_pos hdom, if_pos hslot,
      update_schedule_vcpus]
  have hrt : ∀ i, i ≠ prv.num_schedule_entries →
      ((a653sched_insert_vcpu prv vc).schedule i).runtime
        = (prv.schedule i).runtime := by
    intro i hne
    simp only [a653sched_insert_vcpu, if_pos hdom, if_pos hslot,
      update_schedule_vcpus]
    by_cases hi : i < prv.num_schedule_entries + 1
    · simp [if_pos hi, if_neg hne]
    · simp [if_neg hi, if_neg hne]
  have hrt_n : ((a653sched_insert_vcpu prv vc).schedule
      prv.num_schedule_entries).runtime = DEFAULT_TIMESLICE := by
    simp [a653sched_insert_vcpu, if_pos hdom, if_pos hslot,
      update_schedule_vcpus, hlt]
  have hsum : sumRuntimes (a653sched_insert_vcpu prv vc)
      = sumRuntimes prv + DEFAULT_TIMESLICE := by
    unfold sumRuntimes
    rw [hnum, List.range_succ, List.map_append, List.sum_append]
    simp only [List.map_cons, List.map_nil, List.sum_cons, List.sum_nil,
      add_zero]
    rw [hrt_n]
    have hmap : (List.range prv.num_schedule_entries).map
        (fun i => ((a653sched_insert_vcpu prv vc).schedule i).runtime)
        = (List.range prv.num_schedule_entries).map
          (fun i => (prv.schedule i).runtime) := by
      apply List.map_congr_left
      intro i hi
      rw [List.mem_range] at hi
      exact hrt i (by omega)
    rw [hmap]
  refine ⟨hnum, hmf, hrt_n, ?_, ?_, ?_, ?_, ?_, ?_⟩
  · simp [a653sched_insert_vcpu, if_pos hdom, if_pos hslot,
      update_schedule_vcpus, hlt]
  · simp [a653sched_insert_vcpu, if_pos hdom, if_pos hslot,
      update_schedule_vcpus, hlt]
  · simp [a653sched_insert_vcpu, if_pos hdom, if_pos hslot,
      update_schedule_vcpus, hlt]
  · simp [a653sched_insert_vcpu, if_pos hdom, if_pos hslot,
      update_schedule_vcpus, hlt]
  · intro hI1
    rw [hsum, hmf]
    omega
  · refine ⟨?_, ?_, ?_, ?_, ?_, ?_, ?_, ?_⟩ <;> decide

/-- Witness for `insert_vcpu_dom0`: bootstrap VCPU 0 joining the fresh
instance. -/
theorem insert_vcpu_dom0_witness :
    bootV0.domain.domain_id = 0 ∧
    freshPriv.num_schedule_entries < ARINC653_MAX_SERVICES_PER_SCHEDULE ∧
    (a653sched_insert_vcpu freshPriv bootV0).num_schedule_entries = 1 ∧
    (a653sched_insert_vcpu freshPriv bootV0).major_frame
      = DEFAULT_TIMESLICE := by
  refine ⟨rfl, by decide, ?_, ?_⟩
  · exact (insert_vcpu_dom0 freshPriv bootV0 rfl (by decide)).1
  · have h := (insert_vcpu_dom0 freshPriv bootV0 rfl (by decide)).2.1
    simpa using h

/-- C7 counterexample: install `schedA` (whose entry 1 provider carries the
non-zero `staleHandle`), then the one-entry `schedB` (leaving slot 1
stale), then insert bootstrap VCPU 0.  The appended entry's provider
handle is the stale handle with only byte 0 zeroed — not all-zero — and
because the bootstrap domain's real handle (all-zero) does not match it,
the re-resolution nulls the provider's VCPU reference instead of keeping
the inserted VCPU. -/
theorem insert_vcpu_handle_cex :
    (((a653sched_insert_vcpu
        (arinc653_sched_set (arinc653_sched_set freshPriv schedA 0).2
          schedB 1).2 bootV0).schedule 1).providers 0).dom_handle
      ≠ zeroHandle ∧
    (((a653sched_insert_vcpu
        (arinc653_sched_set (arinc653_sched_set freshPriv schedA 0).2
          schedB 1).2 bootV0).schedule 1).providers 0).vc = none ∧
    (a653sched_insert_vcpu
        (arinc653_sched_set (arinc653_sched_set freshPriv schedA 0).2
          schedB 1).2 bootV0).num_schedule_entries = 2 ∧
    bootV0.domain.domain_id = 0 ∧
    bootV0.domain.handle = zeroHandle := by
  refine ⟨?_, ?_, ?_, ?_, ?_⟩ <;> decide

/-- Helper for C10: when `now` has reached the switch time of the last
schedule entry (start state plus the runtimes of all remaining valid
entries) the advance loop runs off the end: it exits with
`sched_index = num_schedule_entries`, having also accumulated the runtime
read from the out-of-range slot `schedule[num_schedule_entries]`. -/
theorem advanceLoop_off_end (prv : SchedPriv) (now : Int) :
    ∀ k idx nst, prv.num_schedule_entries - idx ≤ k →
      idx < prv.num_schedule_entries →
      (∀ j, idx < j → j < prv.num_schedule_entries →
        0 ≤ (prv.schedule j).runtime) →
      nst + Finset.sum (Finset.Ico (idx + 1) prv.num_schedule_entries)
        (fun j => (prv.schedule j).runtime) ≤ now →
      advanceLoop prv now idx nst
        = (prv.num_schedule_entries,
           nst + Finset.sum (Finset.Ico (idx + 1)
               (prv.num_schedule_entries + 1))
             (fun j => (prv.schedule j).runtime)) := by
  intro k
  induction k with
  | zero =>
    intro idx nst hk hidx _ _
    omega
  | succ k ih =>
    intro idx nst hk hidx hpos hnow
    have hsumnn : 0 ≤ Finset.sum (Finset.Ico (idx + 1)
        prv.num_schedule_entries) (fun j => (prv.schedule j).runtime) := by
      apply Finset.sum_nonneg
      intro j hj
      rw [Finset.mem_Ico] at hj
      exact hpos j (by omega) hj.2
    have hnst : nst ≤ now := by omega
    rw [advanceLoop, if_pos ⟨hnst, hidx⟩]
    by_cases hend : idx + 1 < prv.num_schedule_entries
    · have hsplit : Finset.sum (Finset.Ico (idx + 1)
          prv.num_schedule_entries) (fun j => (prv.schedule j).runtime)
          = (prv.schedule (idx + 1)).runtime
            + Finset.sum (Finset.Ico (idx + 1 + 1) prv.num_schedule_entries)
              (fun j => (prv.schedule j).runtime) :=
        Finset.sum_eq_sum_Ico_succ_bot hend _
      rw [ih (idx + 1) (nst + (prv.schedule (idx + 1)).runtime) (by omega)
        hend (fun j hj1 hj2 => hpos j (by omega) hj2) (by omega)]
      have hsplit2 : Finset.sum (Finset.Ico (idx + 1)
          (prv.num_schedule_entries + 1)) (fun j => (prv.schedule j).runtime)
          = (prv.schedule (idx + 1)).runtime
            + Finset.sum (Finset.Ico (idx + 1 + 1)
                (prv.num_schedule_entries + 1))
              (fun j => (prv.schedule j).runtime) :=
        Finset.sum_eq_sum_Ico_succ_bot (by omega) _
      rw [hsplit2]
      rw [Prod.mk.injEq]
      constructor
      · rfl
      · ring
    · have heq : idx + 1 = prv.num_schedule_entries := by omega
      rw [advanceLoop, if_neg (fun hc => absurd hc.2 (by omega))]
      have hone : Finset.sum (Finset.Ico (idx + 1)
          (prv.num_schedule_entries + 1)) (fun j => (prv.schedule j).runtime)
          = (prv.schedule (idx + 1)).runtime := by
        rw [heq]
        rw [Finset.sum_Ico_succ_top (le_refl _), Finset.Ico_self,
          Finset.sum_empty, zero_add, ← heq]
      rw [hone, Prod.mk.injEq]
      exact ⟨heq, rfl⟩

/-- C10: a dispatcher call in the minor-frame branch at a `now` past the
switch time of the last valid entry exits the advance loop with
`sched_index = num_schedule_entries` and the cached entry pointing at
`schedule[num_schedule_entries]` — one slot past the last valid entry —
and the provider selector is evaluated on that out-of-range entry before
the idle-slack step discards the candidate and returns the idle VCPU with
`next_switch_time = next_major_frame`. -/
theorem do_schedule_stale_entry (prv : SchedPriv) (st : DispatchStatics)
    (now : Int) (tasklet : Bool) (cpu : Nat) (idle : Vcpu)
    (h1 : 1 ≤ prv.num_schedule_entries)
    (h2 : now < prv.next_major_frame)
    (h3 : st.sched_index < prv.num_schedule_entries)
    (h4 : ∀ j, st.sched_index < j → j < prv.num_schedule_entries →
      0 ≤ (prv.schedule j).runtime)
    (h5 : st.next_switch_time + Finset.sum (Finset.Ico (st.sched_index + 1)
        prv.num_schedule_entries) (fun j => (prv.schedule j).runtime)
      ≤ now) :
    (a653sched_do_schedule prv st now tasklet cpu idle).stat.sched_index
      = prv.num_schedule_entries ∧
    (a653sched_do_schedule prv st now tasklet cpu idle).stat.entry_idx
      = prv.num_schedule_entries ∧
    (a653sched_do_schedule prv st now tasklet cpu idle).candidate
      = providers_candidate (prv.schedule prv.num_schedule_entries) ∧
    (a653sched_do_schedule prv st now tasklet cpu idle).task = some idle ∧
    (a653sched_do_schedule prv st now tasklet cpu idle).stat.next_switch_time
      = prv.next_major_frame := by
  have hn : ¬ prv.num_schedule_entries < 1 := by omega
  have hb : ¬ prv.next_major_frame ≤ now := by omega
  have hadv := advanceLoop_off_end prv now
    (prv.num_schedule_entries - st.sched_index) st.sched_index
    st.next_switch_time (le_refl _) h3 h4 h5
  have hne : ¬ prv.num_schedule_entries = st.sched_index := by omega
  have hslack : prv.num_schedule_entries ≤ prv.num_schedule_entries :=
    le_refl _
  simp only [a653sched_do_schedule, if_neg hn, if_neg hb, hadv, if_neg hne,
    if_pos hslack, ite_self]
  exact ⟨trivial, trivial, trivial, trivial, trivial⟩

/-- Witness for `do_schedule_stale_entry`: one valid 10 ns entry, statics
mid-frame with `next_switch_time = 10`, invoked at `now = 20` before the
major frame ends at 30. -/
theorem do_schedule_stale_entry_witness :
    (a653sched_do_schedule
        { schedule := fun _ => zeroEntry, num_schedule_entries := 1,
          major_frame := 10, next_major_frame := 30, vcpu_list := [] }
        { sched_index := 0, entry_idx := 0, next_switch_time := 10 }
        20 false 0 idleV).stat.sched_index = 1 ∧
    (a653sched_do_schedule
        { schedule := fun _ => zeroEntry, num_schedule_entries := 1,
          major_frame := 10, next_major_frame := 30, vcpu_list := [] }
        { sched_index := 0, entry_idx := 0, next_switch_time := 10 }
        20 false 0 idleV).stat.entry_idx = 1 ∧
    (a653sched_do_schedule
        { schedule := fun _ => zeroEntry, num_schedule_entries := 1,
          major_frame := 10, next_major_frame := 30, vcpu_list := [] }
        { sched_index := 0, entry_idx := 0, next_switch_time := 10 }
        20 false 0 idleV).candidate = providers_candidate zeroEntry ∧
    (a653sched_do_schedule
        { schedule := fun _ => zeroEntry, num_schedule_entries := 1,
          major_frame := 10, next_major_frame := 30, vcpu_list := [] }
        { sched_index := 0, entry_idx := 0, next_switch_time := 10 }
        20 false 0 idleV).task = some idleV ∧
    (a653sched_do_schedule
        { schedule := fun _ => zeroEntry, num_schedule_entries := 1,
          major_frame := 10, next_major_frame := 30, vcpu_list := [] }
        { sched_index := 0, entry_idx := 0, next_switch_time := 10 }
        20 false 0 idleV).stat.next_switch_time = 30 :=
  do_schedule_stale_entry
    { schedule := fun _ => zeroEntry, num_schedule_entries := 1,
      major_frame := 10, next_major_frame := 30, vcpu_list := [] }
    { sched_index := 0, entry_idx := 0, next_switch_time := 10 }
    20 false 0 idleV (by norm_num) (by norm_num) (by norm_num)
    (by intro j hj1 hj2; simp [zeroEntry]) (by simp)

end Arinc653
